import Mathlib

/-!
Verification development for the restaurant-booking agent.

The definitions below are shallow embeddings of the JavaScript sources:
* `backend/services/conversationUtils.js` (completeness queries),
* `backend/services/conversationService.js` (extraction filter and slot merge),
* `backend/utils/seatingRecommendation.js` (`recommendSeating`),
* `backend/utils/weatherAPI.js` (`findClosestForecast`),
* `backend/services/weatherService.js` (`getWeatherAndRecommendation`),
* the frontend booking component (`processWithGemini`: date/time window
  validation, merge, weather-flag maintenance, weather dispatch).

JavaScript numbers that are only compared (temperatures, precipitation
probabilities) are modelled as rationals; epoch timestamps, calendar days and
minutes-of-day as integers; nullable JSON fields as `Option`; dynamically
typed slot values as an explicit `JsVal` type carrying JS truthiness.
-/

namespace RestaurantBooking

/-- A JSON-representable JavaScript value as stored in a booking-data slot.
`JSON.parse` can produce `null`, strings, numbers and booleans for the slot
fields; `undefined` cannot appear in parsed JSON output. -/
inductive JsVal where
  | vnull
  | vstr (s : String)
  | vnum (n : Int)
  | vbool (b : Bool)
deriving DecidableEq

/-- JavaScript truthiness of a `JsVal`: `null`, `""`, `0` and `false` are
falsy, everything else is truthy. -/
def jsTruthy : JsVal → Bool
  | .vnull => false
  | .vstr s => !(s = "")
  | .vnum n => !(n = 0)
  | .vbool b => b

/-- The slot names of the backend booking-data record
(`conversationService.js`, initial `bookingData` object). -/
inductive BField where
  | customerName
  | numberOfGuests
  | bookingDate
  | bookingTime
  | cuisinePreference
  | specialRequests
  | seatingPreference
  | location
deriving DecidableEq

/-- A backend booking-data record: a JS object mapping each slot name to a
value (`null` when unset). -/
def BData : Type := BField → JsVal

/-- A parsed extractor output: a JS object holding a subset of the slot keys
(`none` = key absent, `some v` = key present with value `v`, possibly null). -/
def BUpd : Type := BField → Option JsVal

/-- The required-field list of `conversationUtils.js` / `conversationService.js`
(`const required = [...]`), in source order. -/
def requiredFields : List BField :=
  [.customerName, .numberOfGuests, .bookingDate, .bookingTime]

/-- `isBookingComplete` from `conversationUtils.js` (identical copy in
`conversationService.js`): `!!(data.customerName && data.numberOfGuests &&
data.bookingDate && data.bookingTime)`. -/
def isBookingComplete (data : BData) : Bool :=
  jsTruthy (data .customerName) && jsTruthy (data .numberOfGuests) &&
    jsTruthy (data .bookingDate) && jsTruthy (data .bookingTime)

/-- `getMissingFields` from `conversationUtils.js` /
`conversationService.js`: `required.filter((field) => !data[field])`. -/
def getMissingFields (data : BData) : List BField :=
  requiredFields.filter (fun field => ! jsTruthy (data field))

/-- The null-dropping filter at the end of `extractBookingInfo`
(`conversationService.js`):
`Object.fromEntries(Object.entries(parsed).filter(([_, v]) => v !== null && v !== undefined))`.
`undefined` cannot occur in `JSON.parse` output, so dropping `null` entries
is the whole effect. -/
def filterNonNull (parsed : BUpd) : BUpd := fun f =>
  match parsed f with
  | some v => if v = JsVal.vnull then none else some v
  | none => none

/-- The outcome of the extraction call inside `extractBookingInfo`: `some
parsed` when the model call succeeded and its text parsed as JSON, `none`
when the call threw or `JSON.parse` threw. -/
def ExtractOutcome : Type := Option BUpd

/-- `extractBookingInfo` (`conversationService.js`): on success it returns
the parsed object with `null`/`undefined` entries dropped; its own `catch`
turns any failure into the empty update `{}`. -/
def extractBookingInfo (outcome : ExtractOutcome) : BUpd :=
  match outcome with
  | some parsed => filterNonNull parsed
  | none => fun _ => none

/-- The object-spread merge in `processConversationTurn`
(`conversationService.js`):
`conversation.bookingData = { ...conversation.bookingData, ...updatedData }` —
keys present in the update win, absent keys keep the current value. -/
def mergeData (cur : BData) (upd : BUpd) : BData := fun f =>
  match upd f with
  | some v => v
  | none => cur f

/-- The reply produced by a conversation turn: either the text of a
successful response-generation model call, or one of the canned fallbacks
from the `catch` of `generateContextualResponse`. -/
inductive RespMsg where
  | llmText (s : String)
  | cannedField (f : BField)
  | cannedDone
deriving DecidableEq

/-- `generateContextualResponse` (`conversationService.js`): returns the
model text when the call succeeds (`llm = some text`); on failure, if the
booking is incomplete and a required field is missing it returns the canned
prompt for the first missing field, otherwise the generic confirmation
line. -/
def generateContextualResponse (data : BData) (isComplete : Bool)
    (llm : Option String) : RespMsg :=
  match llm with
  | some text => .llmText text
  | none =>
    if !isComplete && !(getMissingFields data).isEmpty then
      match getMissingFields data with
      | f :: _ => .cannedField f
      | [] => .cannedDone
    else .cannedDone

/-- Result record of `processConversationTurn`
(`{ response, bookingData, isComplete, missingFields }`). -/
structure TurnOut where
  response : RespMsg
  bookingData : BData
  isComplete : Bool
  missingFields : List BField

/-- `processConversationTurn` (`conversationService.js`), as a function of
the session's pre-turn slots and the outcomes of the two external model
calls.  Extraction failures are absorbed inside `extractBookingInfo`
(empty update) and response failures inside `generateContextualResponse`
(canned prompt), so the outer `catch` of the source is unreachable and the
turn always returns normally. -/
def processConversationTurn (pre : BData) (extraction : ExtractOutcome)
    (llm : Option String) : TurnOut :=
  let updatedData := extractBookingInfo extraction
  let merged := mergeData pre updatedData
  let isComplete := isBookingComplete merged
  let response := generateContextualResponse merged isComplete llm
  ⟨response, merged, isComplete, getMissingFields merged⟩

/-- `leadsWith s p` holds when the pattern `p` is an initial segment of
`s`, character by character. -/
def leadsWith : List Char → List Char → Bool
  | _, [] => true
  | [], _ :: _ => false
  | c :: cs, p :: ps => c = p && leadsWith cs ps

/-- `occursIn s p` holds when the pattern `p` occurs contiguously somewhere
inside `s`. -/
def occursIn : List Char → List Char → Bool
  | [], p => p.isEmpty
  | c :: cs, p => leadsWith (c :: cs) p || occursIn cs p

/-- Case-insensitive substring test on strings (the subject is lowercased
character-wise, the pattern is given lowercase), used to embed regex
literal-alternative tests such as `/rain|drizzle|snow|thunderstorm/i.test(x)`. -/
def strHas (s pat : String) : Bool :=
  occursIn (s.toList.map Char.toLower) pat.toList

/-- `/rain|drizzle|snow|thunderstorm/i.test(condition)` from
`seatingRecommendation.js`: case-insensitive containment of any of the four
alternatives. -/
def rainConditionTest (condition : String) : Bool :=
  strHas condition "rain" || strHas condition "drizzle" ||
    strHas condition "snow" || strHas condition "thunderstorm"

/-- `/clear|clouds|few clouds/i.test(description)` from
`seatingRecommendation.js`. -/
def pleasantDescriptionTest (description : String) : Bool :=
  strHas description "clear" || strHas description "clouds" ||
    strHas description "few clouds"

/-- One element of a raw forecast entry's `weather` array
(`{ main, description, ... }` in the OpenWeatherMap response). -/
structure WeatherCond where
  main : String
  description : String
deriving DecidableEq

/-- The `main` sub-object of a raw forecast entry (`{ temp, feels_like }`,
degrees Celsius). -/
structure MainData where
  temp : ℚ
  feels_like : ℚ
deriving DecidableEq

/-- One raw 3-hour forecast entry of the provider response's `list` array:
`dt` is the epoch timestamp in seconds; `main`, `weather` and `pop` may be
absent (the source reads them with `?.` / `|| 0`). -/
structure RawEntry where
  dt : ℤ
  main : Option MainData
  weather : List WeatherCond
  pop : Option ℚ
deriving DecidableEq

/-- The normalized forecast entry built at the end of `findClosestForecast`:
`{ dt, temp: closest.main?.temp, feels_like: closest.main?.feels_like,
weather: closest.weather?.[0], pop: closest.pop }`. -/
structure NormEntry where
  dt : ℤ
  temp : Option ℚ
  feels_like : Option ℚ
  weather : Option WeatherCond
  pop : Option ℚ
deriving DecidableEq

/-- The normalization step of `findClosestForecast` (`weatherAPI.js`). -/
def normalizeEntry (e : RawEntry) : NormEntry :=
  ⟨e.dt, (e.main.map MainData.temp), (e.main.map MainData.feels_like),
    e.weather.head?, e.pop⟩

/-- The provider response consumed by `findClosestForecast`: the source
reads `apiResponse.list || []`, so `list` may be absent. -/
structure ApiResp where
  list : Option (List RawEntry)

/-- The sample list the scan of `findClosestForecast` actually iterates
over (`const list = apiResponse.list || []`). -/
def apiList (r : ApiResp) : List RawEntry := r.list.getD []

/-- Absolute time distance `Math.abs(entry.dt - targetEpoch)` used by the
scan of `findClosestForecast`. -/
def dtDist (targetEpoch : ℤ) (e : RawEntry) : ℕ := (e.dt - targetEpoch).natAbs

/-- The `for`-loop of `findClosestForecast`: `closest` starts `null` and
`minDiff` starts `Infinity`, so the first entry always replaces them; after
that an entry replaces the best exactly when its distance is strictly
smaller (`diff < minDiff`), which keeps the first-encountered entry on
ties.  The accumulator pairs the current best entry with its distance
(`none` = still `null`/`Infinity`). -/
def closestScan (targetEpoch : ℤ) :
    List RawEntry → Option (RawEntry × ℕ) → Option (RawEntry × ℕ)
  | [], acc => acc
  | e :: rest, none => closestScan targetEpoch rest (some (e, dtDist targetEpoch e))
  | e :: rest, some (c, m) =>
    if dtDist targetEpoch e < m then
      closestScan targetEpoch rest (some (e, dtDist targetEpoch e))
    else
      closestScan targetEpoch rest (some (c, m))

/-- `findClosestForecast` (`weatherAPI.js`): scan `apiResponse.list || []`
for the entry minimizing `|entry.dt - targetEpoch|`, return `null` if none,
else the normalized entry.  The epoch target computed in the source from
the `"YYYY-MM-DD"`/`"HH:MM"` strings is taken here as the integer it parses
to. -/
def findClosestForecast (apiResponse : ApiResp) (targetEpoch : ℤ) :
    Option NormEntry :=
  (closestScan targetEpoch (apiList apiResponse) none).map
    (fun p => normalizeEntry p.1)

/-- `recommendSeating` (`seatingRecommendation.js`).  The argument is the
normalized forecast entry or `none` (JS `null`/`undefined`).  Reads are
embedded as in the source: `condition = weatherData.weather?.main || ""`,
`description = weatherData.weather?.description || ""`,
`pop = weatherData.pop || 0`; `temp` may be absent (`main` missing in the
raw entry), in which case every JS numeric comparison on it is false. -/
def recommendSeating (weatherData : Option NormEntry) : String :=
  match weatherData with
  | none => "indoor"
  | some w =>
    let condition := (w.weather.map WeatherCond.main).getD ""
    let description := (w.weather.map WeatherCond.description).getD ""
    let pop := w.pop.getD 0
    if rainConditionTest condition then "indoor"
    else if pop > (0.4 : ℚ) then "indoor"
    else if (match w.temp with | some t => t < 10 || t > 38 | none => false) then
      "indoor"
    else if (match w.temp with
             | some t => (18 ≤ t && t ≤ 30) && pleasantDescriptionTest description
             | none => false) then
      "outdoor"
    else "indoor"

/-- The spec's SeatingPolicy priority chain (§4.4 rules 2–6), written over
the spec's normalized-sample vocabulary (`conditionMain`,
`conditionDescription`, `temperatureCelsius`, `precipitationProbability`);
rule 1 (`sample == none → indoor`) is stated separately at the call site.
The pattern lists rain/drizzle/snow/thunderstorm and clear/cloudy(=clouds)/
few-clouds denote the same case-insensitive literal alternatives the code
tests. -/
def specSeatingChain (conditionMain conditionDescription : String)
    (temperatureCelsius precipitationProbability : ℚ) : String :=
  if rainConditionTest conditionMain then "indoor"
  else if precipitationProbability > (0.4 : ℚ) then "indoor"
  else if temperatureCelsius < 10 ∨ temperatureCelsius > 38 then "indoor"
  else if 18 ≤ temperatureCelsius ∧ temperatureCelsius ≤ 30 ∧
      pleasantDescriptionTest conditionDescription then "outdoor"
  else "indoor"

/-- Result record of `getWeatherAndRecommendation`
(`{ weatherInfo, seatingRecommendation }`, plus the `error` field of the
early-return branch). -/
structure WRes where
  weatherInfo : Option NormEntry
  seatingRecommendation : String
  error : Option String
deriving DecidableEq

/-- `getWeatherAndRecommendation` (`weatherService.js`).  `tooFarFuture`
is the precomputed comparison `bookingDateObj > maxDate` (booking date
strictly after today + 5 days); `fetchResult` is the outcome of the awaited
`fetchWeatherForecast` call (`Except.error` = the fetch threw, landing in
the `catch`).  The `weatherInfo` field is reported here as the matched
normalized entry itself; the source's display record is a projection of it
and of the date/time strings, and no claim depends on its shape — only on
its nullness. -/
def getWeatherAndRecommendation (tooFarFuture : Bool)
    (fetchResult : Except String ApiResp) (targetEpoch : ℤ) : WRes :=
  if tooFarFuture then
    ⟨none, "indoor", some "Weather data only available for next 5 days"⟩
  else
    match fetchResult with
    | .error _ => ⟨none, "indoor", none⟩
    | .ok apiResponse =>
      match findClosestForecast apiResponse targetEpoch with
      | none => ⟨none, "indoor", none⟩
      | some forecast =>
        ⟨some forecast, recommendSeating (some forecast), none⟩

/-- The typed frontend booking state (the six fields collected by the
conversation; `none` embeds the unset value `""`/`null`).  Calendar dates
are day indices and times minutes-of-day, the values the source's
`new Date(...)` comparisons act on; the extractor emits canonical
`"YYYY-MM-DD"`/`"HH:MM"` strings, so string (in)equality coincides with
value (in)equality. -/
structure FBooking where
  customerName : Option String
  numberOfGuests : Option ℤ
  bookingDate : Option ℤ
  bookingTime : Option ℤ
  cuisinePreference : Option String
  specialRequests : Option String
deriving DecidableEq

/-- One turn's extractor update, per field: `none` = no value for this
field this turn, `some v` = the extractor produced `v`.  (The backend
filters `null`/`undefined` out of the extractor output before merging, so
present values are real values.) -/
structure FUpdate where
  customerName : Option String
  numberOfGuests : Option ℤ
  bookingDate : Option ℤ
  bookingTime : Option ℤ
  cuisinePreference : Option String
  specialRequests : Option String
deriving DecidableEq

/-- Per-field last-write-wins choice of the object-spread merge. -/
def pickField {α : Type} (upd : Option α) (cur : Option α) : Option α :=
  match upd with
  | some v => some v
  | none => cur

/-- The per-field merge of the turn's update over the current booking:
the backend merges the filtered update into its session record
(`{ ...conversation.bookingData, ...updatedData }`) and returns the full
record, which the frontend adopts (`{ ...booking, ...data.bookingData }`).
Net effect: fields with an update value win, the rest keep their current
value. -/
def mergeFB (b : FBooking) (u : FUpdate) : FBooking :=
  ⟨pickField u.customerName b.customerName,
    pickField u.numberOfGuests b.numberOfGuests,
    pickField u.bookingDate b.bookingDate,
    pickField u.bookingTime b.bookingTime,
    pickField u.cuisinePreference b.cuisinePreference,
    pickField u.specialRequests b.specialRequests⟩

/-- The two date-window rejections and the today-time rejection produced by
the validation block of `processWithGemini` (frontend booking component). -/
inductive Reject where
  | pastDate
  | tooFarFuture
  | timeInPast
deriving DecidableEq

/-- Observable result of one `processWithGemini` update-handling turn:
the booking state afterwards, the `weatherRecommendationGiven` flag
afterwards, which rejection message (if any) was spoken, whether the step
was pinned back to `ASK_DATE`, and whether `fetchWeatherAndRespond` was
dispatched. -/
structure FTurnResult where
  booking : FBooking
  wrg : Bool
  rejection : Option Reject
  askDateAgain : Bool
  dispatchWeather : Bool
deriving DecidableEq

/-- The `allFieldsComplete` test of `processWithGemini`: all six collected
fields truthy (`customerName && numberOfGuests && bookingDate &&
bookingTime && cuisinePreference && specialRequests`). -/
def allFieldsComplete (b : FBooking) : Bool :=
  b.customerName.isSome && b.numberOfGuests.isSome && b.bookingDate.isSome &&
    b.bookingTime.isSome && b.cuisinePreference.isSome && b.specialRequests.isSome

/-- The tail of a validated turn of `processWithGemini`: compute
`dateOrTimeChanged` (`data.bookingData.bookingDate &&
data.bookingData.bookingDate !== booking.bookingDate`, same for the time),
clear `weatherRecommendationGiven` when it holds, adopt the merged booking,
and dispatch the weather check when `allFieldsComplete &&
(!weatherRecommendationGiven || dateOrTimeChanged)` (the flag read is the
pre-turn value). -/
def finishTurn (b : FBooking) (wrg : Bool) (resp : FBooking) : FTurnResult :=
  let dateOrTimeChanged :=
    (resp.bookingDate.isSome && !(resp.bookingDate = b.bookingDate)) ||
      (resp.bookingTime.isSome && !(resp.bookingTime = b.bookingTime))
  let wrg' := if dateOrTimeChanged then false else wrg
  let dispatch := allFieldsComplete resp && (!wrg || dateOrTimeChanged)
  ⟨resp, wrg', none, false, dispatch⟩

/-- The update-handling path of `processWithGemini` (frontend booking
component), one turn: `today` is the local midnight day index, `nowMin` the
current minute of day, `b` the pre-turn booking, `wrg` the pre-turn
`weatherRecommendationGiven` flag, `u` this turn's extractor update.
`resp` plays `data.bookingData`: the backend's post-merge record, which
carries the current (possibly just-updated) date and time.  If a date is
known it is validated against the `[today, today + 5]` window, rejections
returning with the pre-turn booking untouched and the step pinned to
`ASK_DATE`; if it passes and a time is known while the date equals today,
a combined time `<= now` is rejected, clearing `bookingTime` on the
pre-turn booking; otherwise the merged record is adopted and the weather
flag and dispatch are computed. -/
def processWithGemini (today nowMin : ℤ) (b : FBooking) (wrg : Bool)
    (u : FUpdate) : FTurnResult :=
  let resp := mergeFB b u
  match resp.bookingDate with
  | some d =>
    if d < today then ⟨b, wrg, some .pastDate, true, false⟩
    else if today + 5 < d then ⟨b, wrg, some .tooFarFuture, true, false⟩
    else
      match resp.bookingTime with
      | some tm =>
        if d = today ∧ tm ≤ nowMin then
          ⟨{ b with bookingTime := none }, wrg, some .timeInPast, false, false⟩
        else finishTurn b wrg resp
      | none => finishTurn b wrg resp
  | none => finishTurn b wrg resp

/-- The spec's ForecastMatcher contract (§4.3), following its words: select
the sample minimizing absolute time distance to the target, ties broken by
the first-encountered sample; `none` only for an empty sample list.
Expressed as: the first sample (in input order) whose distance equals the
minimum distance over the list. -/
def specClosest (targetEpoch : ℤ) (samples : List RawEntry) : Option RawEntry :=
  match (samples.map (dtDist targetEpoch)).min? with
  | none => none
  | some m => samples.find? (fun e => dtDist targetEpoch e = m)

/-- Classifies a turn reply: `true` exactly for the canned fallback replies
produced by the `catch` of `generateContextualResponse`. -/
def isCannedFallback : RespMsg → Bool
  | .llmText _ => false
  | .cannedField _ => true
  | .cannedDone => true

/-- Slot snapshot with all four required fields non-null but
`numberOfGuests = 0` (a falsy non-null JS number). -/
def guestsZeroSnapshot : BData := fun f =>
  match f with
  | .customerName => .vstr "Asha"
  | .numberOfGuests => .vnum 0
  | .bookingDate => .vstr "2026-10-14"
  | .bookingTime => .vstr "19:00"
  | _ => .vnull

/-- Slot snapshot with all four required fields truthy and the rest null. -/
def fullSnapshot : BData := fun f =>
  match f with
  | .customerName => .vstr "Asha"
  | .numberOfGuests => .vnum 2
  | .bookingDate => .vstr "2026-10-14"
  | .bookingTime => .vstr "19:00"
  | _ => .vnull

/-- `fullSnapshot` with different optional/other fields (same required
fields). -/
def fullSnapshotAlt : BData := fun f =>
  match f with
  | .customerName => .vstr "Asha"
  | .numberOfGuests => .vnum 2
  | .bookingDate => .vstr "2026-10-14"
  | .bookingTime => .vstr "19:00"
  | .cuisinePreference => .vstr "Italian"
  | .location => .vstr "Mumbai"
  | _ => .vnull

/-- A fresh backend session record (`location` defaulted, all else null). -/
def freshSession : BData := fun f =>
  match f with
  | .location => .vstr "New Delhi"
  | _ => .vnull

/-- An extractor update carrying a name, a null time and nothing else. -/
def sampleParsed : BUpd := fun f =>
  match f with
  | .customerName => some (.vstr "Ravi")
  | .bookingTime => some .vnull
  | _ => none

/-- Concrete provider response with a distance tie: entries at epoch 5 and
15 are both at distance 5 from target 10. -/
def tieResp : ApiResp :=
  ⟨some [⟨5, some ⟨24, 24⟩, [⟨"Clear", "clear sky"⟩], some 0⟩,
         ⟨15, some ⟨30, 31⟩, [⟨"Rain", "light rain"⟩], some (1/2)⟩]⟩

/-- A rainy sample at a pleasant temperature (spec Scenario A shape). -/
def rainPleasantSample : NormEntry :=
  ⟨0, some 24, some 24, some ⟨"Rain", "light rain"⟩, some (1/10)⟩

/-- Frontend booking with the four required fields set (date = day 100,
time = minute 600) and both optional fields still empty. -/
def requiredOnlyBooking : FBooking :=
  ⟨some "Asha", some 2, some 100, some 600, none, none⟩

/-- The empty extractor update (nothing new this turn). -/
def emptyFUpdate : FUpdate := ⟨none, none, none, none, none, none⟩

/-- Update carrying only a booking time of minute 400. -/
def earlyTimeUpdate : FUpdate := ⟨none, none, none, some 400, none, none⟩

/-- Fully filled frontend booking (date = day 101, time = minute 700). -/
def fullBooking : FBooking :=
  ⟨some "Asha", some 2, some 101, some 700, some "Italian", some "window seat"⟩

/-- Update moving the booking date to day 102. -/
def dateMoveUpdate : FUpdate := ⟨none, none, some 102, none, none, none⟩

/-- Update carrying only a booking date of day 99 (yesterday when
today = 100). -/
def pastDateUpdate : FUpdate := ⟨none, none, some 99, none, none, none⟩

section Theorems

/-- Characterization of the scan loop of `findClosestForecast`, starting
from a current best `c` at its own distance: the final best either is still
`c` (no entry beat it strictly) or is some entry of the remaining list that
strictly beat everything before it and weakly beats everything after it. -/
theorem closestScan_char (t : ℤ) (l : List RawEntry) :
    ∀ (c : RawEntry) (m : ℕ), m = dtDist t c →
    ∃ c' m', closestScan t l (some (c, m)) = some (c', m') ∧ m' = dtDist t c' ∧
      ((c' = c ∧ m' = m ∧ ∀ x ∈ l, m ≤ dtDist t x) ∨
       (∃ l1 l2, l = l1 ++ c' :: l2 ∧ m' < m ∧ (∀ x ∈ l1, m' < dtDist t x) ∧
         (∀ x ∈ l2, m' ≤ dtDist t x))) := by
  induction l with
  | nil =>
    intro c m hm
    exact ⟨c, m, rfl, hm, Or.inl ⟨rfl, rfl, by simp⟩⟩
  | cons e rest ih =>
    intro c m hm
    by_cases hlt : dtDist t e < m
    · have step : closestScan t (e :: rest) (some (c, m)) =
          closestScan t rest (some (e, dtDist t e)) := by
        simp [closestScan, hlt]
      obtain ⟨c', m', heq, hm', hdisj⟩ := ih e (dtDist t e) rfl
      refine ⟨c', m', step ▸ heq, hm', Or.inr ?_⟩
      rcases hdisj with ⟨hc, hmm, hall⟩ | ⟨l1, l2, hl, hlt2, hstrict, hle⟩
      · subst hc; subst hmm
        exact ⟨[], rest, by simp, hlt, by simp, hall⟩
      · refine ⟨e :: l1, l2, by simp [hl], lt_trans hlt2 hlt, ?_, hle⟩
        intro x hx
        rcases List.mem_cons.mp hx with hx | hx
        · subst hx; exact hlt2
        · exact hstrict x hx
    · have step : closestScan t (e :: rest) (some (c, m)) =
          closestScan t rest (some (c, m)) := by
        simp [closestScan, hlt]
      obtain ⟨c', m', heq, hm', hdisj⟩ := ih c m hm
      refine ⟨c', m', step ▸ heq, hm', ?_⟩
      rcases hdisj with ⟨hc, hmm, hall⟩ | ⟨l1, l2, hl, hlt2, hstrict, hle⟩
      · refine Or.inl ⟨hc, hmm, ?_⟩
        intro x hx
        rcases List.mem_cons.mp hx with hx | hx
        · subst hx; omega
        · exact hall x hx
      · refine Or.inr ⟨e :: l1, l2, by simp [hl], hlt2, ?_, hle⟩
        intro x hx
        rcases List.mem_cons.mp hx with hx | hx
        · subst hx; omega
        · exact hstrict x hx

/-- `findClosestForecast` returns `none` exactly on an empty sample list. -/
theorem findClosest_none_iff (r : ApiResp) (t : ℤ) :
    (findClosestForecast r t).isNone = (apiList r).isEmpty := by
  cases hl : apiList r with
  | nil => simp [findClosestForecast, hl, closestScan]
  | cons e0 rest =>
    obtain ⟨c', m', heq, -, -⟩ := closestScan_char t rest e0 (dtDist t e0) rfl
    simp [findClosestForecast, hl, closestScan, heq]

/-- Any entry `findClosestForecast` returns is the normalization of a
sample of the list that minimizes the distance over the whole list and
strictly beats every earlier sample (first-encountered tie-break). -/
theorem findClosest_char (r : ApiResp) (t : ℤ) (n : NormEntry)
    (h : findClosestForecast r t = some n) :
    ∃ e l1 l2, apiList r = l1 ++ e :: l2 ∧ n = normalizeEntry e ∧
      (∀ x ∈ apiList r, dtDist t e ≤ dtDist t x) ∧
      (∀ x ∈ l1, dtDist t e < dtDist t x) := by
  cases hl : apiList r with
  | nil => simp [findClosestForecast, hl, closestScan] at h
  | cons e0 rest =>
    have h0 : findClosestForecast r t =
        (closestScan t rest (some (e0, dtDist t e0))).map
          (fun p => normalizeEntry p.1) := by
      unfold findClosestForecast
      rw [hl]
      simp [closestScan]
    obtain ⟨c', m', heq, hm', hdisj⟩ := closestScan_char t rest e0 (dtDist t e0) rfl
    subst hm'
    rw [heq] at h0
    have hn : n = normalizeEntry c' := by
      rw [h0] at h
      simpa using h.symm
    rcases hdisj with ⟨hc, hmm, hall⟩ | ⟨l1, l2, hrest, hlt2, hstrict, hle⟩
    · refine ⟨e0, [], rest, by simp, by rw [hn, hc], ?_, by simp⟩
      intro x hx
      rcases List.mem_cons.mp hx with hx | hx
      · subst hx; exact le_refl _
      · exact hc ▸ hall x hx
    · refine ⟨c', e0 :: l1, l2, by simp [hrest], hn, ?_, ?_⟩
      · intro x hx
        rcases List.mem_cons.mp hx with hx | hx
        · subst hx; exact le_of_lt hlt2
        · rw [hrest] at hx
          rcases List.mem_append.mp hx with hx | hx
          · exact le_of_lt (hstrict x hx)
          · rcases List.mem_cons.mp hx with hx | hx
            · subst hx; exact le_refl _
            · exact hle x hx
      · intro x hx
        rcases List.mem_cons.mp hx with hx | hx
        · subst hx; exact hlt2
        · exact hstrict x hx

/-- The spec matcher returns exactly an entry characterized as the
first-encountered global minimizer. -/
theorem specClosest_of_char (t : ℤ) (l : List RawEntry) (e : RawEntry)
    (l1 l2 : List RawEntry) (hl : l = l1 ++ e :: l2)
    (hmin : ∀ x ∈ l, dtDist t e ≤ dtDist t x)
    (hstrict : ∀ x ∈ l1, dtDist t e < dtDist t x) :
    specClosest t l = some e := by
  have hmem : e ∈ l := by rw [hl]; simp
  have hminsome : (l.map (dtDist t)).min? = some (dtDist t e) := by
    rw [List.min?_eq_some_iff']
    refine ⟨List.mem_map_of_mem _ hmem, ?_⟩
    intro b hb
    obtain ⟨x, hx, hxb⟩ := List.mem_map.mp hb
    exact hxb ▸ hmin x hx
  simp only [specClosest, hminsome]
  rw [hl, List.find?_append]
  have h1 : l1.find? (fun x => dtDist t x = dtDist t e) = none := by
    rw [List.find?_eq_none]
    intro x hx
    simp only [decide_eq_true_eq]
    exact (Nat.ne_of_gt (hstrict x hx))
  rw [h1]
  have h2 : (e :: l2).find? (fun x => dtDist t x = dtDist t e) = some e :=
    List.find?_cons_of_pos l2 (by simp)
  simp [h2]

/-- C2: `findClosestForecast` implements the spec's ForecastMatcher
contract: it returns `none` exactly when the sample list is empty, and on a
non-empty list it returns (the normalization of) the sample with minimal
absolute timestamp distance to the target, ties broken in favor of the
first-encountered sample in input order — i.e. it coincides with
`specClosest`, the first sample achieving the minimum distance. -/
theorem findClosestForecast_matches_spec (r : ApiResp) (t : ℤ) :
    findClosestForecast r t = (specClosest t (apiList r)).map normalizeEntry ∧
    (findClosestForecast r t).isNone = (apiList r).isEmpty := by
  refine ⟨?_, findClosest_none_iff r t⟩
  cases hfc : findClosestForecast r t with
  | none =>
    have hiso := findClosest_none_iff r t
    rw [hfc] at hiso
    have hl : apiList r = [] := by
      cases hl' : apiList r with
      | nil => rfl
      | cons a as => rw [hl'] at hiso; simp at hiso
    simp [specClosest, hl]
  | some n =>
    obtain ⟨e, l1, l2, hl, hn, hmin, hstrict⟩ := findClosest_char r t n hfc
    rw [specClosest_of_char t (apiList r) e l1 l2 hl hmin hstrict]
    simp [hn]

/-- C10: `isBookingComplete` agrees with `getMissingFields` on every slot
snapshot: it returns `true` exactly when the missing-required-fields list
is empty, including for non-null but falsy values. -/
theorem isBookingComplete_agrees_missingFields (data : BData) :
    isBookingComplete data = (getMissingFields data).isEmpty := by
  unfold isBookingComplete getMissingFields requiredFields
  cases h1 : jsTruthy (data .customerName) <;>
    cases h2 : jsTruthy (data .numberOfGuests) <;>
      cases h3 : jsTruthy (data .bookingDate) <;>
        cases h4 : jsTruthy (data .bookingTime) <;>
          simp [h1, h2, h3, h4]

/-- C5 counterexample: the snapshot `guestsZeroSnapshot` has all four
required fields non-null, yet `isBookingComplete` returns `false` because
`numberOfGuests = 0` is falsy — refuting "true if and only if all four
required fields are non-null". -/
theorem isBookingComplete_nonNull_counterexample :
    ¬ (isBookingComplete guestsZeroSnapshot = true ↔
        (guestsZeroSnapshot .customerName ≠ .vnull ∧
          guestsZeroSnapshot .numberOfGuests ≠ .vnull ∧
          guestsZeroSnapshot .bookingDate ≠ .vnull ∧
          guestsZeroSnapshot .bookingTime ≠ .vnull)) := by
  decide

/-- C5 (amended): `isBookingComplete` returns `true` exactly when all four
required fields are truthy (non-null and non-empty/non-zero), and the
result depends on the required fields only: two snapshots agreeing on them
get the same answer. -/
theorem isBookingComplete_truthy_iff (d d' : BData)
    (h : ∀ f ∈ requiredFields, d f = d' f) :
    (isBookingComplete d = true ↔
      (jsTruthy (d .customerName) = true ∧ jsTruthy (d .numberOfGuests) = true ∧
        jsTruthy (d .bookingDate) = true ∧ jsTruthy (d .bookingTime) = true)) ∧
    isBookingComplete d = isBookingComplete d' := by
  have h1 := h .customerName (by simp [requiredFields])
  have h2 := h .numberOfGuests (by simp [requiredFields])
  have h3 := h .bookingDate (by simp [requiredFields])
  have h4 := h .bookingTime (by simp [requiredFields])
  constructor
  · simp [isBookingComplete, and_assoc]
  · unfold isBookingComplete
    rw [h1, h2, h3, h4]

/-- Witness for `isBookingComplete_truthy_iff` at two concrete snapshots
differing only in non-required fields. -/
theorem isBookingComplete_truthy_iff_witness :
    (isBookingComplete fullSnapshot = true ↔
      (jsTruthy (fullSnapshot .customerName) = true ∧
        jsTruthy (fullSnapshot .numberOfGuests) = true ∧
        jsTruthy (fullSnapshot .bookingDate) = true ∧
        jsTruthy (fullSnapshot .bookingTime) = true)) ∧
    isBookingComplete fullSnapshot = isBookingComplete fullSnapshotAlt :=
  isBookingComplete_truthy_iff fullSnapshot fullSnapshotAlt (by decide)

/-- C6: on a turn whose extraction succeeded with parsed output `parsed`,
the post-turn slot state is the pre-turn state overwritten per-field by the
parsed update with null entries filtered out: a field absent from the
update or returned as null keeps its previous value; a field present with a
non-null value takes exactly that value (last-write-wins); and the merge
never clears a field (a null after the merge was already null before). -/
theorem conversationTurn_merge_frame (pre : BData) (parsed : BUpd)
    (llm : Option String) (f : BField) :
    ((parsed f = none ∨ parsed f = some .vnull) →
      (processConversationTurn pre (some parsed) llm).bookingData f = pre f) ∧
    (∀ v : JsVal, parsed f = some v → v ≠ .vnull →
      (processConversationTurn pre (some parsed) llm).bookingData f = v) ∧
    ((processConversationTurn pre (some parsed) llm).bookingData f = .vnull →
      pre f = .vnull) := by
  have hbd : (processConversationTurn pre (some parsed) llm).bookingData f =
      mergeData pre (filterNonNull parsed) f := rfl
  rw [hbd]
  unfold mergeData filterNonNull
  cases hp : parsed f with
  | none => simp
  | some v =>
    by_cases hv : v = JsVal.vnull
    · subst hv; simp
    · simp [hv]

/-- Witness for `conversationTurn_merge_frame`: a null `bookingTime` in the
parsed update keeps the previous value, a non-null `customerName` is
adopted. -/
theorem conversationTurn_merge_frame_witness :
    (processConversationTurn freshSession (some sampleParsed) none).bookingData
        .bookingTime = freshSession .bookingTime ∧
    (processConversationTurn freshSession (some sampleParsed) none).bookingData
        .customerName = .vstr "Ravi" :=
  ⟨(conversationTurn_merge_frame freshSession sampleParsed none .bookingTime).1
      (Or.inr rfl),
    (conversationTurn_merge_frame freshSession sampleParsed none .customerName).2.1
      (.vstr "Ravi") rfl (by decide)⟩

/-- On a failed response-generation call the reply is always one of the
canned fallbacks. -/
theorem generateContextualResponse_fallback (d : BData) (isC : Bool) :
    isCannedFallback (generateContextualResponse d isC none) = true := by
  dsimp only [generateContextualResponse]
  split
  · split <;> rfl
  · rfl

/-- C9 counterexample: a turn whose extraction failed but whose
response-generation call succeeded returns the generated text, not a canned
fallback prompt — refuting "accompanied by a fallback prompt" (the slots
are still untouched). -/
theorem extractionFailure_response_counterexample :
    (processConversationTurn freshSession none
        (some "May I have your name?")).response =
      RespMsg.llmText "May I have your name?" ∧
    isCannedFallback
        ((processConversationTurn freshSession none
            (some "May I have your name?")).response) = false ∧
    (processConversationTurn freshSession none
        (some "May I have your name?")).bookingData .customerName =
      freshSession .customerName :=
  ⟨rfl, rfl, rfl⟩

/-- C9 (amended): if the extraction call fails or its output cannot be
parsed, nothing is merged — the turn completes without throwing, with the
session's slot values exactly as before — and the reply is the canned
field-specific fallback when the response-generation call also fails,
otherwise the normally generated prompt. -/
theorem extractionFailure_preserves_slots (pre : BData) (llm : Option String) :
    (∀ f, (processConversationTurn pre none llm).bookingData f = pre f) ∧
    (processConversationTurn pre none llm).isComplete = isBookingComplete pre ∧
    (llm = none →
      isCannedFallback (processConversationTurn pre none llm).response = true) ∧
    (∀ s, llm = some s →
      (processConversationTurn pre none llm).response = .llmText s) := by
  refine ⟨fun f => rfl, rfl, ?_, ?_⟩
  · intro h
    subst h
    exact generateContextualResponse_fallback _ _
  · intro s h
    subst h
    rfl

/-- Witness for `extractionFailure_preserves_slots`: a doubly failed turn
on a fresh session keeps the slots and produces a canned fallback. -/
theorem extractionFailure_preserves_slots_witness :
    (processConversationTurn freshSession none none).bookingData .customerName =
      freshSession .customerName ∧
    isCannedFallback (processConversationTurn freshSession none none).response =
      true :=
  ⟨(extractionFailure_preserves_slots freshSession none).1 .customerName,
    (extractionFailure_preserves_slots freshSession none).2.2.1 rfl⟩

/-- C1: `recommendSeating` returns exactly the result of the spec's
first-match-wins priority chain: no sample → indoor; else conditionMain
matching rain/drizzle/snow/thunderstorm (case-insensitive) → indoor; else
precipitationProbability > 0.4 → indoor; else temperature < 10 or > 38 →
indoor; else temperature in [18, 30] with a pleasant conditionDescription →
outdoor; otherwise indoor.  In particular a rainy sample at a pleasant
temperature is indoor, and the function is total: every input yields
"indoor" or "outdoor". -/
theorem recommendSeating_matches_specChain :
    recommendSeating none = "indoor" ∧
    (∀ (w : NormEntry) (t : ℚ), w.temp = some t →
      recommendSeating (some w) =
        specSeatingChain ((w.weather.map WeatherCond.main).getD "")
          ((w.weather.map WeatherCond.description).getD "") t (w.pop.getD 0)) ∧
    (∀ (w : NormEntry) (t : ℚ), w.temp = some t →
      rainConditionTest ((w.weather.map WeatherCond.main).getD "") = true →
      18 ≤ t → t ≤ 30 → recommendSeating (some w) = "indoor") ∧
    (∀ w : Option NormEntry,
      recommendSeating w = "indoor" ∨ recommendSeating w = "outdoor") := by
  refine ⟨rfl, ?_, ?_, ?_⟩
  · intro w t ht
    obtain ⟨dt', tmp, fl, wth, pp⟩ := w
    simp only at ht
    subst ht
    simp only [recommendSeating, specSeatingChain, Bool.or_eq_true,
      Bool.and_eq_true, decide_eq_true_eq, and_assoc]
  · intro w t ht hrain _ _
    obtain ⟨dt', tmp, fl, wth, pp⟩ := w
    simp [recommendSeating, hrain]
  · intro w
    cases w with
    | none => exact Or.inl rfl
    | some w =>
      simp only [recommendSeating]
      split_ifs <;> simp

/-- Witness for the `recommendSeating` chain at the rainy pleasant sample:
rule 2 precedes rule 5, so the recommendation is indoor. -/
theorem recommendSeating_matches_specChain_witness :
    recommendSeating (some rainPleasantSample) = "indoor" ∧
    recommendSeating (some rainPleasantSample) =
      specSeatingChain "Rain" "light rain" 24 (1/10) :=
  ⟨recommendSeating_matches_specChain.2.2.1 rainPleasantSample 24 rfl (by decide)
      (by norm_num) (by norm_num),
    recommendSeating_matches_specChain.2.1 rainPleasantSample 24 rfl⟩

/-- C8: whenever the weather step cannot produce a forecast sample — the
booking date is beyond the 5-day window, the fetch threw, or the response
holds no matching sample — `getWeatherAndRecommendation` still returns a
result with `weatherInfo = null` and seating recommendation "indoor"
(never propagating the failure), and `recommendSeating` applied to no
sample is "indoor". -/
theorem weatherFailure_defaults_indoor (tooFar : Bool)
    (fetchResult : Except String ApiResp) (targetEpoch : ℤ) :
    recommendSeating none = "indoor" ∧
    (tooFar = true →
      getWeatherAndRecommendation tooFar fetchResult targetEpoch =
        ⟨none, "indoor", some "Weather data only available for next 5 days"⟩) ∧
    (∀ e, tooFar = false → fetchResult = .error e →
      getWeatherAndRecommendation tooFar fetchResult targetEpoch =
        ⟨none, "indoor", none⟩) ∧
    (∀ resp, tooFar = false → fetchResult = .ok resp → apiList resp = [] →
      getWeatherAndRecommendation tooFar fetchResult targetEpoch =
        ⟨none, "indoor", none⟩) := by
  refine ⟨rfl, ?_, ?_, ?_⟩
  · intro h
    subst h
    rfl
  · intro e h he
    subst h
    subst he
    rfl
  · intro resp h hr hl
    subst h
    subst hr
    simp [getWeatherAndRecommendation, findClosestForecast, hl, closestScan]

/-- Witness for `weatherFailure_defaults_indoor`: a failed fetch yields the
indoor default with null weather info. -/
theorem weatherFailure_defaults_indoor_witness :
    getWeatherAndRecommendation false (.error "boom") 0 =
      ⟨none, "indoor", none⟩ ∧
    recommendSeating none = "indoor" :=
  ⟨(weatherFailure_defaults_indoor false (.error "boom") 0).2.2.1 "boom" rfl rfl,
    (weatherFailure_defaults_indoor false (.error "boom") 0).1⟩

/-- C3: on any turn whose update carries a booking date `d`: strictly
before today it is rejected with the past-date reason, strictly after
today + 5 with the too-far-future reason — in both cases the returned
state is exactly the pre-turn booking (the date keeps its previous value,
unset stays unset, no other field of the update is merged), the step is
pinned back to asking for the date, the flag is untouched and no weather
check is dispatched; any date in the inclusive window `[today, today + 5]`
is never date-rejected. -/
theorem dateWindow_validation (today nowMin : ℤ) (b : FBooking) (wrg : Bool)
    (u : FUpdate) (d : ℤ) (h : u.bookingDate = some d) :
    (d < today → processWithGemini today nowMin b wrg u =
      ⟨b, wrg, some .pastDate, true, false⟩) ∧
    (today + 5 < d → processWithGemini today nowMin b wrg u =
      ⟨b, wrg, some .tooFarFuture, true, false⟩) ∧
    (today ≤ d → d ≤ today + 5 →
      (processWithGemini today nowMin b wrg u).rejection ≠ some .pastDate ∧
      (processWithGemini today nowMin b wrg u).rejection ≠ some .tooFarFuture) := by
  have hresp : (mergeFB b u).bookingDate = some d := by
    simp [mergeFB, pickField, h]
  refine ⟨?_, ?_, ?_⟩
  · intro hlt
    simp [processWithGemini, hresp, hlt]
  · intro hgt
    have hnl : ¬ d < today := by omega
    simp [processWithGemini, hresp, hnl, hgt]
  · intro h1 h2
    have hn1 : ¬ d < today := not_lt.mpr h1
    have hn2 : ¬ today + 5 < d := not_lt.mpr h2
    simp only [processWithGemini, hresp, if_neg hn1, if_neg hn2]
    cases hbt : (mergeFB b u).bookingTime with
    | none => exact ⟨by simp [finishTurn], by simp [finishTurn]⟩
    | some tm =>
      by_cases hc : d = today ∧ tm ≤ nowMin
      · simp [hc]
      · simp [hc, finishTurn]

/-- Witness for `dateWindow_validation`: yesterday's date (day 99 with
today = 100) is rejected as past, the booking is untouched. -/
theorem dateWindow_validation_witness :
    processWithGemini 100 500 requiredOnlyBooking false pastDateUpdate =
      ⟨requiredOnlyBooking, false, some .pastDate, true, false⟩ :=
  (dateWindow_validation 100 500 requiredOnlyBooking false pastDateUpdate 99
      rfl).1 (by decide)

/-- C4: on any turn whose update carries a booking time `tm` while the
current (possibly just-updated) booking date equals today, a combined time
at or before the current minute is rejected: the returned booking is the
pre-turn one with `bookingTime` cleared (it holds no value afterwards),
the specific in-past reason is surfaced to re-ask for the time, and no
other field of the update is merged; a time strictly after now is never
time-rejected. -/
theorem todayTime_validation (today nowMin : ℤ) (b : FBooking) (wrg : Bool)
    (u : FUpdate) (tm : ℤ) (ht : u.bookingTime = some tm)
    (hd : (mergeFB b u).bookingDate = some today) :
    (tm ≤ nowMin → processWithGemini today nowMin b wrg u =
      ⟨{ b with bookingTime := none }, wrg, some .timeInPast, false, false⟩) ∧
    (nowMin < tm →
      (processWithGemini today nowMin b wrg u).rejection ≠ some .timeInPast) := by
  have hbt : (mergeFB b u).bookingTime = some tm := by
    simp [mergeFB, pickField, ht]
  have hn1 : ¬ today < today := lt_irrefl _
  have hn2 : ¬ today + 5 < today := by omega
  constructor
  · intro hle
    simp [processWithGemini, hd, hbt, hn1, hn2, hle]
  · intro hgt
    have hnle : ¬ tm ≤ nowMin := not_le.mpr hgt
    simp [processWithGemini, hd, hbt, hn1, hn2, hnle, finishTurn]

/-- Witness for `todayTime_validation`: with today = day 100 and now at
minute 500, an update carrying time 400 onto a booking for today is
rejected and the stored time is cleared. -/
theorem todayTime_validation_witness :
    processWithGemini 100 500 requiredOnlyBooking true earlyTimeUpdate =
      ⟨{ requiredOnlyBooking with bookingTime := none }, true,
        some .timeInPast, false, false⟩ :=
  (todayTime_validation 100 500 requiredOnlyBooking true earlyTimeUpdate 400
      rfl rfl).1 (by decide)

/-- C7 counterexample, two concrete turns refuting the claim as stated:
(i) a validated turn whose post-turn booking has all four required fields
set, with the weather flag false, yet no weather check is dispatched
(the code additionally requires the optional cuisine and special-request
fields); (ii) a time-rejected turn in which `bookingTime` actually changes
value (set → cleared) yet the flag is not cleared. -/
theorem weatherDispatch_counterexample :
    ((processWithGemini 100 500 requiredOnlyBooking false emptyFUpdate
        ).booking.customerName.isSome = true ∧
      (processWithGemini 100 500 requiredOnlyBooking false emptyFUpdate
        ).booking.numberOfGuests.isSome = true ∧
      (processWithGemini 100 500 requiredOnlyBooking false emptyFUpdate
        ).booking.bookingDate.isSome = true ∧
      (processWithGemini 100 500 requiredOnlyBooking false emptyFUpdate
        ).booking.bookingTime.isSome = true ∧
      (processWithGemini 100 500 requiredOnlyBooking false emptyFUpdate
        ).rejection = none ∧
      (processWithGemini 100 500 requiredOnlyBooking false emptyFUpdate
        ).dispatchWeather = false) ∧
    ((processWithGemini 100 500 requiredOnlyBooking true earlyTimeUpdate
        ).booking.bookingTime ≠ requiredOnlyBooking.bookingTime ∧
      (processWithGemini 100 500 requiredOnlyBooking true earlyTimeUpdate
        ).wrg = true) := by
  decide

/-- If the merged value of a field differs from the pre-turn one, the
update must have carried a value for it. -/
theorem pickField_isSome_of_ne {α : Type} (uo bo : Option α)
    (h : pickField uo bo ≠ bo) : (pickField uo bo).isSome = true := by
  cases uo with
  | none => exact absurd rfl h
  | some v => rfl

/-- The source's `dateOrTimeChanged` test (truthy and different) coincides
with "the merged date or time differs from the pre-turn one", because a
field value can only differ after the merge when the update carried one. -/
theorem dateOrTimeChanged_iff (b : FBooking) (u : FUpdate) :
    (((mergeFB b u).bookingDate.isSome &&
        !((mergeFB b u).bookingDate = b.bookingDate)) ||
      ((mergeFB b u).bookingTime.isSome &&
        !((mergeFB b u).bookingTime = b.bookingTime))) = true ↔
    ((mergeFB b u).bookingDate ≠ b.bookingDate ∨
      (mergeFB b u).bookingTime ≠ b.bookingTime) := by
  simp only [Bool.or_eq_true, Bool.and_eq_true, Bool.not_eq_true',
    decide_eq_false_iff_not]
  constructor
  · rintro (⟨-, h⟩ | ⟨-, h⟩)
    · exact Or.inl h
    · exact Or.inr h
  · rintro (h | h)
    · exact Or.inl ⟨pickField_isSome_of_ne u.bookingDate b.bookingDate h, h⟩
    · exact Or.inr ⟨pickField_isSome_of_ne u.bookingTime b.bookingTime h, h⟩

/-- A turn that surfaced no rejection took the merge-and-continue path. -/
theorem processWithGemini_no_rejection (today nowMin : ℤ) (b : FBooking)
    (wrg : Bool) (u : FUpdate) :
    (processWithGemini today nowMin b wrg u).rejection = none →
    processWithGemini today nowMin b wrg u = finishTurn b wrg (mergeFB b u) := by
  cases hD : (mergeFB b u).bookingDate with
  | none =>
    intro _
    simp [processWithGemini, hD]
  | some d =>
    by_cases h1 : d < today
    · simp only [processWithGemini, hD, if_pos h1]
      intro h
      simp at h
    · by_cases h2 : today + 5 < d
      · simp only [processWithGemini, hD, if_neg h1, if_pos h2]
        intro h
        simp at h
      · cases hT : (mergeFB b u).bookingTime with
        | none =>
          intro _
          simp [processWithGemini, hD, hT, if_neg h1, if_neg h2]
        | some tm =>
          by_cases h3 : d = today ∧ tm ≤ nowMin
          · simp only [processWithGemini, hD, hT, if_neg h1, if_neg h2,
              if_pos h3]
            intro h
            simp at h
          · simp only [processWithGemini, hD, hT, if_neg h1, if_neg h2,
              if_neg h3]
            intro _
            trivial

/-- C7 (amended): on every turn that passes date/time validation
(no rejection surfaced): if the merged booking's date or time actually
changed value this turn the `weatherRecommendationGiven` flag is cleared;
if neither changed the flag keeps its previous value; and the weather check
is dispatched exactly when all six collected fields (the four required plus
`cuisinePreference` and `specialRequests`) are set and the flag is false or
the date/time changed this turn. -/
theorem weatherDispatch_flag_amended (today nowMin : ℤ) (b : FBooking)
    (wrg : Bool) (u : FUpdate) (r : FTurnResult)
    (hr : processWithGemini today nowMin b wrg u = r)
    (hnr : r.rejection = none) :
    ((r.booking.bookingDate ≠ b.bookingDate ∨
        r.booking.bookingTime ≠ b.bookingTime) → r.wrg = false) ∧
    ((r.booking.bookingDate = b.bookingDate ∧
        r.booking.bookingTime = b.bookingTime) → r.wrg = wrg) ∧
    (r.dispatchWeather = true ↔
      (allFieldsComplete r.booking = true ∧
        (wrg = false ∨ r.booking.bookingDate ≠ b.bookingDate ∨
          r.booking.bookingTime ≠ b.bookingTime))) := by
  subst hr
  rw [processWithGemini_no_rejection today nowMin b wrg u hnr]
  have hiff := dateOrTimeChanged_iff b u
  simp only [finishTurn]
  set cB := ((mergeFB b u).bookingDate.isSome &&
      !((mergeFB b u).bookingDate = b.bookingDate)) ||
    ((mergeFB b u).bookingTime.isSome &&
      !((mergeFB b u).bookingTime = b.bookingTime)) with hcBdef
  refine ⟨?_, ?_, ?_⟩
  · intro hch
    rw [hiff.mpr hch]
    simp
  · rintro ⟨hd, ht⟩
    have hcb : cB = false := by
      cases hcb' : cB
      · rfl
      · rcases hiff.mp hcb' with h | h
        · exact absurd hd h
        · exact absurd ht h
    rw [hcb]
    simp
  · rw [Bool.and_eq_true, Bool.or_eq_true, Bool.not_eq_true', hiff]

/-- Witness for `weatherDispatch_flag_amended`: moving the date of a fully
filled booking clears the flag and re-dispatches the weather check. -/
theorem weatherDispatch_flag_amended_witness :
    (processWithGemini 100 500 fullBooking true dateMoveUpdate).wrg = false ∧
    (processWithGemini 100 500 fullBooking true dateMoveUpdate
      ).dispatchWeather = true := by
  have h := weatherDispatch_flag_amended 100 500 fullBooking true dateMoveUpdate
    (processWithGemini 100 500 fullBooking true dateMoveUpdate) rfl (by decide)
  exact ⟨h.1 (Or.inl (by decide)),
    h.2.2.mpr ⟨by decide, Or.inr (Or.inl (by decide))⟩⟩

end Theorems

end RestaurantBooking
